import Mathlib

/-!
Verification of the Aura Intuitive server (Express + Stripe + Supabase + Resend).

The server keeps one relation, `consultations`, and mutates it from three
entry points: the Stripe webhook (insert of a `paid` row), the customer
submit endpoint (update `paid` to `submitted`, or fallback insert directly in
`submitted`), and the admin respond endpoint (update to `answered` plus a
best-effort email). The definitions below are a shallow embedding of the
handlers in the server source: database calls become explicit state passing
over a list of rows, network outcomes (Stripe retrieval, database failures,
email delivery) become explicit parameters, and the clock and the generated
row id become string parameters.
-/

/-- Status domain of a consultation row: the schema constrains `status` to
the three values paid, submitted, answered. -/
inductive Status where
  | paid
  | submitted
  | answered
deriving DecidableEq, Repr

/-- Forward order of the status lifecycle: paid before submitted before
answered. Used to state that no handler moves a row backwards. -/
def Status.rank : Status → Nat
  | .paid => 0
  | .submitted => 1
  | .answered => 2

/-- One row of the `consultations` relation, with the columns of the schema.
Timestamps and the generated id are opaque strings; `amount` is the numeric
column (euros), kept as an exact rational. -/
structure Consultation where
  id : String
  stripe_session_id : String
  service : String
  amount : Rat
  status : Status
  customer_email : Option String
  name : Option String
  email : Option String
  birthdate : Option String
  person_concerned : Option String
  message : Option String
  response : Option String
  submitted_at : Option String
  answered_at : Option String
  created_at : String
deriving DecidableEq, Repr

/-- The fields of a Stripe checkout session the handlers read:
`session.id`, `session.amount_total` (nullable, minor units),
`session.customer_details?.email` (nullable) and `session.payment_status`. -/
structure StripeSession where
  id : String
  amount_total : Option Int
  customer_email : Option String
  payment_status : String
deriving DecidableEq, Repr

/-- JavaScript `x || null` on a nullable string: an absent or empty string is
falsy and collapses to null. -/
def jsOrNull : Option String → Option String
  | none => none
  | some s => if s = "" then none else some s

/-- JavaScript `x || y` where `x` is a nullable string and `y` a string:
used for `session.customer_details?.email || email` in the submit fallback. -/
def jsOrStr (x : Option String) (y : String) : String :=
  match x with
  | none => y
  | some s => if s = "" then y else s

/-- Service label computed in the webhook handler:
`if (amountTotal >= 1000) service = 'Consultation Ressenti' else 'Réponse Oui / Non'`. -/
def webhookServiceLabel (amountTotal : Int) : String :=
  if amountTotal ≥ 1000 then "Consultation Ressenti" else "Réponse Oui / Non"

/-- Service label computed inline in the submit fallback branch:
`amountTotal >= 1000 ? 'Consultation Ressenti' : 'Réponse Oui / Non'`. -/
def submitServiceLabel (amountTotal : Int) : String :=
  if amountTotal ≥ 1000 then "Consultation Ressenti" else "Réponse Oui / Non"

/-- Supabase `insert` into `consultations`: fails when the network fails
(`dbFail`) or when the unique constraint on `stripe_session_id` is violated;
otherwise appends the row. `none` models an insert error. -/
def insertConsultation (store : List Consultation) (c : Consultation)
    (dbFail : Bool) : Option (List Consultation) :=
  if dbFail then none
  else if store.any (fun r => r.stripe_session_id = c.stripe_session_id) then none
  else some (store ++ [c])

/-- Supabase `select ... eq('stripe_session_id', sid) ... single()`:
the unique constraint makes at most one row match. -/
def findBySession (store : List Consultation) (sid : String) : Option Consultation :=
  store.find? (fun r => r.stripe_session_id = sid)

/-- Supabase `select ... eq('id', id) ... single()`: lookup by primary key. -/
def findById (store : List Consultation) (idv : String) : Option Consultation :=
  store.find? (fun r => r.id = idv)

/-- Outcome of the webhook handler: 400 for a missing header, 400 for a
failed signature verification, or 200 with body received true. -/
inductive WebhookResult where
  | missingSig
  | sigError
  | received
deriving DecidableEq, Repr

/-- HTTP status the webhook handler writes for each outcome. -/
def WebhookResult.httpStatus : WebhookResult → Nat
  | .missingSig => 400
  | .sigError => 400
  | .received => 200

/-- A verified Stripe event: either `checkout.session.completed` carrying a
session object, or any other event type (ignored by the handler). -/
inductive StripeEvent where
  | checkoutSessionCompleted (session : StripeSession)
  | other
deriving DecidableEq, Repr

/-- POST /api/webhook. `sig` is the `stripe-signature` header, `sigValid`
the outcome of `stripe.webhooks.constructEvent`, `event` the verified event,
`dbFail` whether the Supabase insert fails at the network level, `newId` the
generated row id and `now` the database clock. Returns the response and the
new store; an insert error is logged, not surfaced. -/
def webhookHandler (sig : Option String) (sigValid : Bool) (event : StripeEvent)
    (store : List Consultation) (dbFail : Bool) (newId now : String) :
    WebhookResult × List Consultation :=
  match sig with
  | none => (.missingSig, store)
  | some _ =>
    if !sigValid then (.sigError, store)
    else
      match event with
      | .checkoutSessionCompleted session =>
        let amountTotal := session.amount_total.getD 0
        let service := webhookServiceLabel amountTotal
        let row : Consultation :=
          { id := newId
            stripe_session_id := session.id
            service := service
            amount := (amountTotal : Rat) / 100
            status := .paid
            customer_email := jsOrNull session.customer_email
            name := none
            email := none
            birthdate := none
            person_concerned := none
            message := none
            response := none
            submitted_at := none
            answered_at := none
            created_at := now }
        match insertConsultation store row dbFail with
        | none => (.received, store)
        | some store2 => (.received, store2)
      | .other => (.received, store)

/-- Body of POST /api/submit as the handler destructures it; the required
fields are plain strings (empty means missing/falsy), the optional ones are
nullable. -/
structure SubmitBody where
  session_id : String
  name : String
  email : String
  birthdate : Option String
  person_concerned : Option String
  message : String
deriving DecidableEq, Repr

/-- Outcome of the submit handler: success true, or a status code with a
localized error message. -/
inductive SubmitResult where
  | ok
  | err (status : Nat) (msg : String)
deriving DecidableEq, Repr

/-- POST /api/submit. `retrieve` is the outcome of
`stripe.checkout.sessions.retrieve` (`none` models a thrown error), `dbFail`
whether the Supabase insert/update fails, `newId` the generated id for the
fallback insert and `now` the clock. Returns the response and the new store. -/
def submitHandler (body : SubmitBody) (store : List Consultation)
    (retrieve : Option StripeSession) (dbFail : Bool) (newId now : String) :
    SubmitResult × List Consultation :=
  if body.session_id = "" ∨ body.name = "" ∨ body.email = "" ∨ body.message = "" then
    (.err 400 "Champs obligatoires manquants.", store)
  else
    match findBySession store body.session_id with
    | none =>
      match retrieve with
      | none => (.err 403 "Session de paiement invalide.", store)
      | some session =>
        if session.payment_status ≠ "paid" then
          (.err 403 "Paiement non vérifié.", store)
        else
          let amountTotal := session.amount_total.getD 0
          let service := submitServiceLabel amountTotal
          let row : Consultation :=
            { id := newId
              stripe_session_id := body.session_id
              service := service
              amount := (amountTotal : Rat) / 100
              status := .submitted
              customer_email := some (jsOrStr session.customer_email body.email)
              name := some body.name
              email := some body.email
              birthdate := jsOrNull body.birthdate
              person_concerned := jsOrNull body.person_concerned
              message := some body.message
              submitted_at := some now
              response := none
              answered_at := none
              created_at := now }
          match insertConsultation store row dbFail with
          | none => (.err 500 "Erreur lors de l\x27enregistrement.", store)
          | some store2 => (.ok, store2)
    | some consultation =>
      if consultation.status ≠ .paid then
        (.err 400 "Vous avez déjà soumis votre question pour cette consultation.", store)
      else if dbFail then
        (.err 500 "Erreur lors de l\x27enregistrement.", store)
      else
        (.ok, store.map (fun r =>
          if r.stripe_session_id = body.session_id then
            { r with
                status := .submitted
                name := some body.name
                email := some body.email
                birthdate := jsOrNull body.birthdate
                person_concerned := jsOrNull body.person_concerned
                message := some body.message
                submitted_at := some now }
          else r))

/-- Outcome of GET /form: a redirect to the services section, the
already-submitted page, or the question form. -/
inductive FormResult where
  | redirectServices
  | alreadySubmittedPage
  | formPage
deriving DecidableEq, Repr

/-- GET /form. `sessionId` is the query parameter (absent or empty is
falsy), `retrieve` the Stripe fallback lookup outcome. -/
def formHandler (sessionId : Option String) (store : List Consultation)
    (retrieve : Option StripeSession) : FormResult :=
  match sessionId with
  | none => .redirectServices
  | some sid =>
    if sid = "" then .redirectServices
    else
      match findBySession store sid with
      | none =>
        match retrieve with
        | none => .redirectServices
        | some session =>
          if session.payment_status ≠ "paid" then .redirectServices
          else .formPage
      | some data =>
        if data.status ≠ .paid then .alreadySubmittedPage
        else .formPage

/-- Outcome of POST /api/admin/respond: success with the email-delivery
flag and message, or a status code with a localized error. -/
inductive RespondResult where
  | ok (emailSent : Bool) (message : String)
  | err (status : Nat) (msg : String)
deriving DecidableEq, Repr

/-- POST /api/admin/respond. `updateFail` models a Supabase update failure,
`emailOk` the Resend delivery outcome, `now` the clock. Returns the
response, the new store and whether an email send was attempted. -/
def respondHandler (idv response : String) (store : List Consultation)
    (updateFail emailOk : Bool) (now : String) :
    RespondResult × List Consultation × Bool :=
  if idv = "" ∨ response = "" then
    (.err 400 "Champs manquants.", store, false)
  else
    match findById store idv with
    | none => (.err 404 "Consultation introuvable.", store, false)
    | some _ =>
      if updateFail then
        (.err 500 "Erreur lors de la mise à jour.", store, false)
      else
        let store2 := store.map (fun r =>
          if r.id = idv then
            { r with
                status := .answered
                response := some response
                answered_at := some now }
          else r)
        let message :=
          if emailOk then "Réponse enregistrée et email envoyé !"
          else "Réponse enregistrée ✅ mais l\x27email n\x27a pas pu être envoyé. Vous pouvez copier la réponse et l\x27envoyer manuellement."
        (.ok emailOk message, store2, true)

/-- Aggregates returned by GET /api/admin/stats. -/
structure Stats where
  total : Nat
  pending : Nat
  answered : Nat
  revenue : Rat
deriving DecidableEq, Repr

/-- GET /api/admin/stats. Selects the rows whose status is submitted or
answered, then counts and sums as the handler does; `dbFail` models a
Supabase query failure (500). -/
def statsHandler (store : List Consultation) (dbFail : Bool) :
    Except String Stats :=
  if dbFail then .error "Erreur base de données."
  else
    let all := store.filter (fun c => c.status = .submitted ∨ c.status = .answered)
    .ok
      { total := all.length
        pending := (all.filter (fun c => c.status = Status.submitted)).length
        answered := (all.filter (fun c => c.status = Status.answered)).length
        revenue := all.foldl (fun sum c => sum + c.amount) 0 }

/-- Outcome of DELETE /api/admin/consultations/:id. -/
inductive DeleteResult where
  | ok
  | err (status : Nat) (msg : String)
deriving DecidableEq, Repr

/-- DELETE /api/admin/consultations/:id. Supabase `delete().eq('id', id)`
removes the matching rows and reports no error when none match; `dbFail`
models a database failure (500). -/
def deleteHandler (idv : String) (store : List Consultation) (dbFail : Bool) :
    DeleteResult × List Consultation :=
  if dbFail then (.err 500 "Erreur lors de la suppression.", store)
  else (.ok, store.filter (fun r => r.id ≠ idv))

/-!
Concrete rows used by the witnesses and the counterexample below.
-/

/-- A concrete consultation row, parameterised by id, session id and status. -/
def sampleRow (idv sid : String) (st : Status) : Consultation :=
  { id := idv
    stripe_session_id := sid
    service := "Réponse Oui / Non"
    amount := 9
    status := st
    customer_email := some "client@example.com"
    name := some "Ana"
    email := some "ana@example.com"
    birthdate := none
    person_concerned := none
    message := some "Ma question"
    response := none
    submitted_at := none
    answered_at := none
    created_at := "t0" }

/-- A concrete Stripe session with a paid status. -/
def sampleSession (paid : Bool) (amountTotal : Int) : StripeSession :=
  { id := "cs_123"
    amount_total := some amountTotal
    customer_email := some "client@example.com"
    payment_status := if paid then "paid" else "unpaid" }

/-- A concrete submit body with every required field populated. -/
def sampleBody : SubmitBody :=
  { session_id := "cs_123"
    name := "Ana"
    email := "ana@example.com"
    birthdate := none
    person_concerned := none
    message := "Ma question" }

/-- Between an old and a new store, no row's status moves backwards: any
old row and any new row sharing a primary key have a non-decreasing status
rank. -/
def noStatusRegression (old new : List Consultation) : Prop :=
  ∀ r ∈ old, ∀ r2 ∈ new, r2.id = r.id → r.status.rank ≤ r2.status.rank

/-- Between an old and a new store, every answered row of the new store
descends from an answered row of the old store with the same primary key:
the operation did not move a row into answered. -/
def noFreshAnswered (old new : List Consultation) : Prop :=
  ∀ r2 ∈ new, r2.status = Status.answered →
    ∃ r ∈ old, r.id = r2.id ∧ r.status = Status.answered

/-- C2: the service label is a pure function of the paid amount — at or
above 1000 minor units the premium label Consultation Ressenti, below it
the standard label Réponse Oui / Non — and the derivation of the webhook
path agrees with the derivation of the submit fallback path at every
amount. -/
theorem C2_service_label_derivation (a : Int) :
    (1000 ≤ a ↔ webhookServiceLabel a = "Consultation Ressenti")
    ∧ (a < 1000 ↔ webhookServiceLabel a = "Réponse Oui / Non")
    ∧ webhookServiceLabel a = submitServiceLabel a := by
  unfold webhookServiceLabel submitServiceLabel
  by_cases h : 1000 ≤ a
  · rw [if_pos h]
    refine ⟨⟨fun _ => rfl, fun _ => h⟩, ⟨fun h2 => absurd h (by omega), fun h2 => ?_⟩, rfl⟩
    exact absurd h2 (by decide)
  · rw [if_neg h]
    refine ⟨⟨fun h2 => absurd h2 h, fun h2 => absurd h2.symm (by decide)⟩,
      ⟨fun _ => rfl, fun _ => by omega⟩, rfl⟩

/-- C6: once the stripe-signature header is present and verification
succeeds, the webhook handler answers 200 received true for every event
type and every insert outcome; a missing header or a failed verification
answers 400 and leaves the store unchanged. -/
theorem C6_webhook_always_acknowledges (event : StripeEvent)
    (store : List Consultation) (dbFail : Bool) (newId now : String) :
    (∀ b : Bool,
        webhookHandler none b event store dbFail newId now
          = (WebhookResult.missingSig, store)
        ∧ WebhookResult.missingSig.httpStatus = 400)
    ∧ (∀ s : String,
        webhookHandler (some s) false event store dbFail newId now
          = (WebhookResult.sigError, store)
        ∧ WebhookResult.sigError.httpStatus = 400)
    ∧ (∀ s : String,
        (webhookHandler (some s) true event store dbFail newId now).1
          = WebhookResult.received
        ∧ WebhookResult.received.httpStatus = 200) := by
  refine ⟨fun b => ⟨rfl, rfl⟩, fun s => ⟨rfl, rfl⟩, fun s => ⟨?_, rfl⟩⟩
  cases event with
  | other => rfl
  | checkoutSessionCompleted session =>
    unfold webhookHandler
    dsimp only
    cases insertConsultation store _ dbFail <;> rfl

/-- C9: deleting by an id that matches no row still reports success and
leaves the store unchanged, and for any id every row with a different id
survives the deletion unchanged. -/
theorem C9_delete_safe_and_framed (idv : String) (store : List Consultation) :
    (deleteHandler idv store false).1 = DeleteResult.ok
    ∧ ((∀ r ∈ store, r.id ≠ idv) → deleteHandler idv store false = (DeleteResult.ok, store))
    ∧ (∀ r ∈ store, r.id ≠ idv → r ∈ (deleteHandler idv store false).2) := by
  refine ⟨rfl, fun h => ?_, fun r hr hne => ?_⟩
  · unfold deleteHandler
    rw [if_neg (by simp)]
    have : store.filter (fun r => r.id ≠ idv) = store :=
      List.filter_eq_self.mpr (fun r hr => by simpa using h r hr)
    rw [this]
  · unfold deleteHandler
    rw [if_neg (by simp)]
    exact List.mem_filter.mpr ⟨hr, by simpa using hne⟩

/-- C7: the form gate redirects on a missing or empty session id, serves
the already-submitted view when a local row exists whose status has left
paid, and when no local row exists it re-verifies with Stripe: a fallback
lookup failure or an unpaid session redirects away, a verified paid
session is still served the form. -/
theorem C7_form_gate (store : List Consultation) (retrieve : Option StripeSession)
    (sid : String) (c : Consultation) (hsid : sid ≠ "") :
    formHandler none store retrieve = FormResult.redirectServices
    ∧ formHandler (some "") store retrieve = FormResult.redirectServices
    ∧ (findBySession store sid = some c → c.status ≠ Status.paid →
        formHandler (some sid) store retrieve = FormResult.alreadySubmittedPage)
    ∧ (findBySession store sid = none →
        formHandler (some sid) store none = FormResult.redirectServices)
    ∧ (findBySession store sid = none → ∀ session : StripeSession,
        session.payment_status ≠ "paid" →
        formHandler (some sid) store (some session) = FormResult.redirectServices)
    ∧ (findBySession store sid = none → ∀ session : StripeSession,
        session.payment_status = "paid" →
        formHandler (some sid) store (some session) = FormResult.formPage) := by
  refine ⟨rfl, rfl, fun hfind hc => ?_, fun hfind => ?_, fun hfind s hs => ?_,
    fun hfind s hs => ?_⟩
  · simp [formHandler, hsid, hfind, hc]
  · simp [formHandler, hsid, hfind]
  · simp [formHandler, hsid, hfind, hs]
  · simp [formHandler, hsid, hfind, hs]

/-- C7 witness: concrete runs of the form gate — no session id redirects, a
submitted row yields the already-submitted view, and a paid Stripe session
with no local row yields the form. -/
theorem C7_form_gate_witness :
    formHandler none [] none = FormResult.redirectServices
    ∧ formHandler (some "cs_123") [sampleRow "1" "cs_123" Status.submitted] none
        = FormResult.alreadySubmittedPage
    ∧ formHandler (some "cs_123") [] (some (sampleSession true 1500))
        = FormResult.formPage := by
  have h1 := C7_form_gate [sampleRow "1" "cs_123" Status.submitted] none "cs_123"
    (sampleRow "1" "cs_123" Status.submitted) (by decide)
  have h2 := C7_form_gate [] (some (sampleSession true 1500)) "cs_123"
    (sampleRow "1" "cs_123" Status.submitted) (by decide)
  exact ⟨h1.1, h1.2.2.1 (by decide) (by decide),
    h2.2.2.2.2.2 (by decide) (sampleSession true 1500) (by decide)⟩

/-- C4: a submit request for a session whose local row has already left the
paid status is rejected with 400 and the localized conflict message, and
the store is unchanged. -/
theorem C4_double_submission_rejected (body : SubmitBody) (store : List Consultation)
    (retrieve : Option StripeSession) (dbFail : Bool) (newId now : String)
    (c : Consultation)
    (hv1 : body.session_id ≠ "") (hv2 : body.name ≠ "") (hv3 : body.email ≠ "")
    (hv4 : body.message ≠ "")
    (hfind : findBySession store body.session_id = some c)
    (hst : c.status ≠ Status.paid) :
    submitHandler body store retrieve dbFail newId now
      = (SubmitResult.err 400 "Vous avez déjà soumis votre question pour cette consultation.",
         store) := by
  simp [submitHandler, hv1, hv2, hv3, hv4, hfind, hst]

/-- C4 witness: a concrete resubmission against an already-submitted row is
rejected with the conflict message and the store kept as it was. -/
theorem C4_double_submission_rejected_witness :
    submitHandler sampleBody [sampleRow "1" "cs_123" Status.submitted] none false "2" "t1"
      = (SubmitResult.err 400 "Vous avez déjà soumis votre question pour cette consultation.",
         [sampleRow "1" "cs_123" Status.submitted]) :=
  C4_double_submission_rejected sampleBody [sampleRow "1" "cs_123" Status.submitted]
    none false "2" "t1" (sampleRow "1" "cs_123" Status.submitted)
    (by decide) (by decide) (by decide) (by decide) (by decide) (by decide)

/-- C3: on an existing record with a valid body, the respond handler
commits status answered, the response text and answered-at before any
email attempt; a failed email leaves the committed update in place and
yields a success result carrying emailSent false, while a failed update
yields a 500 error, leaves the store unchanged and attempts no email. -/
theorem C3_respond_commit_before_email (idv resp : String) (store : List Consultation)
    (emailOk : Bool) (now : String) (c : Consultation)
    (hid : idv ≠ "") (hresp : resp ≠ "")
    (hfind : findById store idv = some c) :
    (∃ msg : String, (respondHandler idv resp store false emailOk now).1
        = RespondResult.ok emailOk msg)
    ∧ (respondHandler idv resp store false emailOk now).2.2 = true
    ∧ (∃ r2, r2 ∈ (respondHandler idv resp store false emailOk now).2.1
        ∧ r2.id = idv ∧ r2.status = Status.answered ∧ r2.response = some resp
        ∧ r2.answered_at = some now)
    ∧ (respondHandler idv resp store false true now).2.1
        = (respondHandler idv resp store false false now).2.1
    ∧ respondHandler idv resp store true emailOk now
        = (RespondResult.err 500 "Erreur lors de la mise à jour.", store, false) := by
  have hguard : ¬(idv = "" ∨ resp = "") := by simp [hid, hresp]
  have hcmem : c ∈ store := List.mem_of_find?_eq_some hfind
  have hcid : c.id = idv := by simpa using List.find?_some hfind
  have hred : ∀ eo : Bool, respondHandler idv resp store false eo now
      = (RespondResult.ok eo
          (if eo then "Réponse enregistrée et email envoyé !"
           else "Réponse enregistrée ✅ mais l\x27email n\x27a pas pu être envoyé. Vous pouvez copier la réponse et l\x27envoyer manuellement."),
         store.map (fun r =>
           if r.id = idv then
             { r with status := Status.answered, response := some resp,
                      answered_at := some now }
           else r), true) := by
    intro eo
    simp [respondHandler, hguard, hfind]
  refine ⟨⟨_, by rw [hred]⟩, by rw [hred], ?_, by rw [hred, hred], ?_⟩
  · refine ⟨{ c with status := Status.answered
                     response := some resp
                     answered_at := some now },
      ?_, by simpa using hcid, rfl, rfl, rfl⟩
    rw [hred]
    exact List.mem_map.mpr ⟨c, hcmem, by simp [hcid]⟩
  · simp [respondHandler, hguard, hfind]

/-- C3 witness: a concrete respond run on a submitted row with the email
transport forced to fail — the row is committed as answered and the result
is a success carrying emailSent false; the same run with the update forced
to fail is a 500 with no email attempt. -/
theorem C3_respond_commit_before_email_witness :
    (∃ msg : String,
      (respondHandler "1" "Voici ma guidance" [sampleRow "1" "cs_123" Status.submitted]
          false false "t2").1 = RespondResult.ok false msg)
    ∧ (respondHandler "1" "Voici ma guidance" [sampleRow "1" "cs_123" Status.submitted]
        false false "t2").2.2 = true
    ∧ (∃ r2, r2 ∈ (respondHandler "1" "Voici ma guidance"
          [sampleRow "1" "cs_123" Status.submitted] false false "t2").2.1
        ∧ r2.id = "1" ∧ r2.status = Status.answered
        ∧ r2.response = some "Voici ma guidance" ∧ r2.answered_at = some "t2")
    ∧ (respondHandler "1" "Voici ma guidance" [sampleRow "1" "cs_123" Status.submitted]
        false true "t2").2.1
        = (respondHandler "1" "Voici ma guidance" [sampleRow "1" "cs_123" Status.submitted]
            false false "t2").2.1
    ∧ respondHandler "1" "Voici ma guidance" [sampleRow "1" "cs_123" Status.submitted]
        true false "t2"
        = (RespondResult.err 500 "Erreur lors de la mise à jour.",
           [sampleRow "1" "cs_123" Status.submitted], false) :=
  C3_respond_commit_before_email "1" "Voici ma guidance"
    [sampleRow "1" "cs_123" Status.submitted] false "t2"
    (sampleRow "1" "cs_123" Status.submitted)
    (by decide) (by decide) (by decide)

/-- C10: the submit update branch rewrites the store pointwise — a row with
a different session id is returned literally unchanged, and the matching
row changes only status, name, email, birthdate, person-concerned, message
and submitted-at, keeping id, session id, service, amount, customer email,
response, answered-at and created-at. -/
theorem C10_submit_update_frame (body : SubmitBody) (store : List Consultation)
    (retrieve : Option StripeSession) (newId now : String) (c : Consultation)
    (hv1 : body.session_id ≠ "") (hv2 : body.name ≠ "") (hv3 : body.email ≠ "")
    (hv4 : body.message ≠ "")
    (hfind : findBySession store body.session_id = some c)
    (hpaid : c.status = Status.paid) :
    ∃ f : Consultation → Consultation,
      submitHandler body store retrieve false newId now = (SubmitResult.ok, store.map f)
      ∧ (∀ r : Consultation, r.stripe_session_id ≠ body.session_id → f r = r)
      ∧ ∀ r : Consultation, r.stripe_session_id = body.session_id →
          (f r).id = r.id ∧ (f r).stripe_session_id = r.stripe_session_id
          ∧ (f r).service = r.service ∧ (f r).amount = r.amount
          ∧ (f r).customer_email = r.customer_email ∧ (f r).response = r.response
          ∧ (f r).answered_at = r.answered_at ∧ (f r).created_at = r.created_at
          ∧ (f r).status = Status.submitted ∧ (f r).name = some body.name
          ∧ (f r).email = some body.email ∧ (f r).birthdate = jsOrNull body.birthdate
          ∧ (f r).person_concerned = jsOrNull body.person_concerned
          ∧ (f r).message = some body.message ∧ (f r).submitted_at = some now := by
  refine ⟨fun r =>
      if r.stripe_session_id = body.session_id then
        { r with status := Status.submitted
                 name := some body.name
                 email := some body.email
                 birthdate := jsOrNull body.birthdate
                 person_concerned := jsOrNull body.person_concerned
                 message := some body.message
                 submitted_at := some now }
      else r,
    ?_, fun r hr => by simp [hr], fun r hr => by simp [hr]⟩
  simp [submitHandler, hv1, hv2, hv3, hv4, hfind, hpaid]

/-- C10 witness: a concrete submit against a paid row and a bystander row —
the handler succeeds and the pointwise description of the update holds. -/
theorem C10_submit_update_frame_witness :
    ∃ f : Consultation → Consultation,
      submitHandler sampleBody
          [sampleRow "1" "cs_123" Status.paid, sampleRow "2" "cs_999" Status.answered]
          none false "3" "t1"
        = (SubmitResult.ok,
           [sampleRow "1" "cs_123" Status.paid, sampleRow "2" "cs_999" Status.answered].map f)
      ∧ (∀ r : Consultation, r.stripe_session_id ≠ sampleBody.session_id → f r = r)
      ∧ ∀ r : Consultation, r.stripe_session_id = sampleBody.session_id →
          (f r).id = r.id ∧ (f r).stripe_session_id = r.stripe_session_id
          ∧ (f r).service = r.service ∧ (f r).amount = r.amount
          ∧ (f r).customer_email = r.customer_email ∧ (f r).response = r.response
          ∧ (f r).answered_at = r.answered_at ∧ (f r).created_at = r.created_at
          ∧ (f r).status = Status.submitted ∧ (f r).name = some sampleBody.name
          ∧ (f r).email = some sampleBody.email
          ∧ (f r).birthdate = jsOrNull sampleBody.birthdate
          ∧ (f r).person_concerned = jsOrNull sampleBody.person_concerned
          ∧ (f r).message = some sampleBody.message ∧ (f r).submitted_at = some "t1" :=
  C10_submit_update_frame sampleBody
    [sampleRow "1" "cs_123" Status.paid, sampleRow "2" "cs_999" Status.answered]
    none "3" "t1" (sampleRow "1" "cs_123" Status.paid)
    (by decide) (by decide) (by decide) (by decide) (by decide) (by decide)

/-- C5: when no local row matches the session id, the submit handler
re-verifies with Stripe — a failed lookup or an unpaid session is rejected
with 403 and no row is created, while a paid session synthesizes a row
directly in submitted status carrying the form fields, submitted-at, the
amount-total divided by 100, and the same service derivation as the
webhook path. -/
theorem C5_submit_fallback_synthesis (body : SubmitBody) (store : List Consultation)
    (dbFail : Bool) (newId now : String)
    (hv1 : body.session_id ≠ "") (hv2 : body.name ≠ "") (hv3 : body.email ≠ "")
    (hv4 : body.message ≠ "")
    (hnone : findBySession store body.session_id = none) :
    (submitHandler body store none dbFail newId now
        = (SubmitResult.err 403 "Session de paiement invalide.", store))
    ∧ (∀ session : StripeSession, session.payment_status ≠ "paid" →
        submitHandler body store (some session) dbFail newId now
          = (SubmitResult.err 403 "Paiement non vérifié.", store))
    ∧ (∀ session : StripeSession, session.payment_status = "paid" →
        ∃ row : Consultation,
          submitHandler body store (some session) false newId now
            = (SubmitResult.ok, store ++ [row])
          ∧ row.status = Status.submitted
          ∧ row.name = some body.name ∧ row.email = some body.email
          ∧ row.message = some body.message ∧ row.submitted_at = some now
          ∧ row.amount = ((session.amount_total.getD 0 : Int) : Rat) / 100
          ∧ row.service = webhookServiceLabel (session.amount_total.getD 0)) := by
  have hmiss : ∀ x ∈ store, ¬ x.stripe_session_id = body.session_id := by
    intro x hx
    simpa using List.find?_eq_none.mp hnone x hx
  refine ⟨?_, fun session hs => ?_, fun session hs => ?_⟩
  · simp [submitHandler, hv1, hv2, hv3, hv4, hnone]
  · simp [submitHandler, hv1, hv2, hv3, hv4, hnone, hs]
  · refine ⟨{ id := newId
              stripe_session_id := body.session_id
              service := submitServiceLabel (session.amount_total.getD 0)
              amount := ((session.amount_total.getD 0 : Int) : Rat) / 100
              status := Status.submitted
              customer_email := some (jsOrStr session.customer_email body.email)
              name := some body.name
              email := some body.email
              birthdate := jsOrNull body.birthdate
              person_concerned := jsOrNull body.person_concerned
              message := some body.message
              response := none
              submitted_at := some now
              answered_at := none
              created_at := now },
      ?_, rfl, rfl, rfl, rfl, rfl, rfl, rfl⟩
    have hany : (store.any fun r => r.stripe_session_id = body.session_id) = false := by
      simpa using hmiss
    simp [submitHandler, hv1, hv2, hv3, hv4, hnone, hs, insertConsultation, hany]

/-- C5 witness: concrete fallback runs on an empty store — a failed Stripe
lookup and an unpaid session are rejected with 403 leaving the store empty,
and a paid session yields a synthesized submitted row. -/
theorem C5_submit_fallback_synthesis_witness :
    (submitHandler sampleBody [] none false "7" "t1"
        = (SubmitResult.err 403 "Session de paiement invalide.", []))
    ∧ (∀ session : StripeSession, session.payment_status ≠ "paid" →
        submitHandler sampleBody [] (some session) false "7" "t1"
          = (SubmitResult.err 403 "Paiement non vérifié.", []))
    ∧ (∀ session : StripeSession, session.payment_status = "paid" →
        ∃ row : Consultation,
          submitHandler sampleBody [] (some session) false "7" "t1"
            = (SubmitResult.ok, [] ++ [row])
          ∧ row.status = Status.submitted
          ∧ row.name = some sampleBody.name ∧ row.email = some sampleBody.email
          ∧ row.message = some sampleBody.message ∧ row.submitted_at = some "t1"
          ∧ row.amount = ((session.amount_total.getD 0 : Int) : Rat) / 100
          ∧ row.service = webhookServiceLabel (session.amount_total.getD 0)) :=
  C5_submit_fallback_synthesis sampleBody [] false "7" "t1"
    (by decide) (by decide) (by decide) (by decide) rfl

/-- Filtering the submitted rows out of the submitted-or-answered selection
selects the same rows as filtering them out of the whole relation. -/
theorem filter_submitted_of_selected (l : List Consultation) :
    ((l.filter (fun c => c.status = Status.submitted ∨ c.status = Status.answered)).filter
        (fun c => c.status = Status.submitted))
      = l.filter (fun c => c.status = Status.submitted) := by
  rw [List.filter_filter]
  refine List.filter_congr (fun x _ => ?_)
  cases hx : x.status <;> simp [hx]

/-- Filtering the answered rows out of the submitted-or-answered selection
selects the same rows as filtering them out of the whole relation. -/
theorem filter_answered_of_selected (l : List Consultation) :
    ((l.filter (fun c => c.status = Status.submitted ∨ c.status = Status.answered)).filter
        (fun c => c.status = Status.answered))
      = l.filter (fun c => c.status = Status.answered) := by
  rw [List.filter_filter]
  refine List.filter_congr (fun x _ => ?_)
  cases hx : x.status <;> simp [hx]

/-- The submitted-or-answered selection splits by status: its size is the
number of submitted rows plus the number of answered rows. -/
theorem length_selected_split (l : List Consultation) :
    (l.filter (fun c => c.status = Status.submitted ∨ c.status = Status.answered)).length
      = (l.filter (fun c => c.status = Status.submitted)).length
        + (l.filter (fun c => c.status = Status.answered)).length := by
  induction l with
  | nil => rfl
  | cons a t ih =>
    cases ha : a.status <;> simp [List.filter_cons, ha] at ih ⊢ <;> omega

/-- A left fold adding amounts over a list equals the starting accumulator
plus the sum of the mapped amounts. -/
theorem foldl_amount_eq_sum (l : List Consultation) (acc : Rat) :
    l.foldl (fun sum c => sum + c.amount) acc = acc + (l.map (fun c => c.amount)).sum := by
  induction l generalizing acc with
  | nil => simp
  | cons a t ih =>
    rw [List.foldl_cons, ih, List.map_cons, List.sum_cons]
    ring

/-- Selecting the submitted-or-answered rows is the same as dropping the
rows still in paid status. -/
theorem filter_selected_eq_filter_ne_paid (l : List Consultation) :
    l.filter (fun c => c.status = Status.submitted ∨ c.status = Status.answered)
      = l.filter (fun c => c.status ≠ Status.paid) := by
  refine List.filter_congr (fun x _ => ?_)
  cases hx : x.status <;> simp [hx]

/-- C8: the stats aggregate only over submitted and answered rows — pending
counts the submitted rows, answered the answered rows, total equals their
sum, revenue sums the amounts over exactly the rows not in paid status, and
prepending a paid row changes none of the figures. -/
theorem C8_stats_aggregation (store : List Consultation) (c : Consultation)
    (hc : c.status = Status.paid) :
    (∃ s : Stats, statsHandler store false = Except.ok s
      ∧ s.pending = (store.filter (fun r => r.status = Status.submitted)).length
      ∧ s.answered = (store.filter (fun r => r.status = Status.answered)).length
      ∧ s.total = s.pending + s.answered
      ∧ s.revenue = ((store.filter (fun r => r.status ≠ Status.paid)).map
          (fun r => r.amount)).sum)
    ∧ statsHandler (c :: store) false = statsHandler store false := by
  constructor
  · refine ⟨_, rfl, ?_, ?_, ?_, ?_⟩
    · exact congrArg List.length (filter_submitted_of_selected store)
    · exact congrArg List.length (filter_answered_of_selected store)
    · rw [show (Stats.total _) = _ from rfl]
      rw [congrArg List.length (filter_submitted_of_selected store),
        congrArg List.length (filter_answered_of_selected store)]
      exact length_selected_split store
    · rw [show (Stats.revenue _) = _ from rfl, foldl_amount_eq_sum,
        filter_selected_eq_filter_ne_paid]
      simp
  · simp [statsHandler, List.filter_cons, hc]

/-- C8 witness: the stats over a concrete store holding one paid, one
submitted and one answered row, and the irrelevance of one more paid row. -/
theorem C8_stats_aggregation_witness :
    (∃ s : Stats, statsHandler
        [sampleRow "1" "cs_1" Status.paid, sampleRow "2" "cs_2" Status.submitted,
         sampleRow "3" "cs_3" Status.answered] false = Except.ok s
      ∧ s.pending = ([sampleRow "1" "cs_1" Status.paid, sampleRow "2" "cs_2" Status.submitted,
          sampleRow "3" "cs_3" Status.answered].filter
            (fun r => r.status = Status.submitted)).length
      ∧ s.answered = ([sampleRow "1" "cs_1" Status.paid, sampleRow "2" "cs_2" Status.submitted,
          sampleRow "3" "cs_3" Status.answered].filter
            (fun r => r.status = Status.answered)).length
      ∧ s.total = s.pending + s.answered
      ∧ s.revenue = (([sampleRow "1" "cs_1" Status.paid, sampleRow "2" "cs_2" Status.submitted,
          sampleRow "3" "cs_3" Status.answered].filter
            (fun r => r.status ≠ Status.paid)).map (fun r => r.amount)).sum)
    ∧ statsHandler (sampleRow "4" "cs_4" Status.paid ::
        [sampleRow "1" "cs_1" Status.paid, sampleRow "2" "cs_2" Status.submitted,
         sampleRow "3" "cs_3" Status.answered]) false
      = statsHandler
        [sampleRow "1" "cs_1" Status.paid, sampleRow "2" "cs_2" Status.submitted,
         sampleRow "3" "cs_3" Status.answered] false :=
  C8_stats_aggregation
    [sampleRow "1" "cs_1" Status.paid, sampleRow "2" "cs_2" Status.submitted,
     sampleRow "3" "cs_3" Status.answered]
    (sampleRow "4" "cs_4" Status.paid) rfl

/-- An insert that succeeds can only have taken the append branch. -/
theorem insertConsultation_some (store : List Consultation) (c : Consultation)
    (dbFail : Bool) (s2 : List Consultation)
    (h : insertConsultation store c dbFail = some s2) : s2 = store ++ [c] := by
  unfold insertConsultation at h
  split at h
  · cases h
  · split at h
    · cases h
    · exact (Option.some.inj h).symm

/-- The webhook leaves the store unchanged or appends one freshly generated
row in paid status. -/
theorem webhookHandler_store_shape (sig : Option String) (sigValid : Bool)
    (event : StripeEvent) (store : List Consultation) (dbFail : Bool)
    (newId now : String) :
    (webhookHandler sig sigValid event store dbFail newId now).2 = store
    ∨ ∃ row : Consultation,
        (webhookHandler sig sigValid event store dbFail newId now).2 = store ++ [row]
        ∧ row.id = newId ∧ row.status = Status.paid := by
  cases sig with
  | none => exact Or.inl rfl
  | some s =>
    cases sigValid with
    | false => exact Or.inl rfl
    | true =>
      cases event with
      | other => exact Or.inl rfl
      | checkoutSessionCompleted session =>
        unfold webhookHandler
        dsimp only
        split
        next hcontra => exact absurd hcontra (by decide)
        · split
          · exact Or.inl rfl
          next s2 heq =>
            exact Or.inr ⟨_, insertConsultation_some _ _ _ _ heq, rfl, rfl⟩

/-- The submit handler leaves the store unchanged, appends one freshly
generated row in submitted status, or rewrites the store pointwise after
having found a paid row under the session id. -/
theorem submitHandler_store_shape (body : SubmitBody) (store : List Consultation)
    (retrieve : Option StripeSession) (dbFail : Bool) (newId now : String) :
    (submitHandler body store retrieve dbFail newId now).2 = store
    ∨ (∃ row : Consultation,
        (submitHandler body store retrieve dbFail newId now).2 = store ++ [row]
        ∧ row.id = newId ∧ row.status = Status.submitted)
    ∨ (∃ c : Consultation, findBySession store body.session_id = some c
        ∧ c.status = Status.paid
        ∧ (submitHandler body store retrieve dbFail newId now).2
          = store.map (fun r =>
              if r.stripe_session_id = body.session_id then
                { r with status := Status.submitted
                         name := some body.name
                         email := some body.email
                         birthdate := jsOrNull body.birthdate
                         person_concerned := jsOrNull body.person_concerned
                         message := some body.message
                         submitted_at := some now }
              else r)) := by
  unfold submitHandler
  split
  · exact Or.inl rfl
  · split
    next hfind =>
      cases retrieve with
      | none => exact Or.inl rfl
      | some session =>
        dsimp only
        split
        · exact Or.inl rfl
        · split
          · exact Or.inl rfl
          next s2 heq =>
            exact Or.inr (Or.inl ⟨_, insertConsultation_some _ _ _ _ heq, rfl, rfl⟩)
    next c hfind =>
      split
      · exact Or.inl rfl
      next hc =>
        split
        · exact Or.inl rfl
        · exact Or.inr (Or.inr ⟨c, hfind, not_not.mp hc, rfl⟩)

/-- The respond handler leaves the store unchanged or rewrites it pointwise,
answering the rows under the given id. -/
theorem respondHandler_store_shape (idv resp : String) (store : List Consultation)
    (updateFail emailOk : Bool) (now : String) :
    (respondHandler idv resp store updateFail emailOk now).2.1 = store
    ∨ (respondHandler idv resp store updateFail emailOk now).2.1
      = store.map (fun r =>
          if r.id = idv then
            { r with status := Status.answered
                     response := some resp
                     answered_at := some now }
          else r) := by
  unfold respondHandler
  split
  · exact Or.inl rfl
  · split
    · exact Or.inl rfl
    · split
      · exact Or.inl rfl
      · exact Or.inr rfl

/-- A store compared with itself never regresses when primary keys are
unique. -/
theorem noStatusRegression_self (store : List Consultation)
    (hids : (store.map (fun r => r.id)).Nodup) : noStatusRegression store store := by
  intro r hr r2 hr2 heq
  have h : r2 = r := List.inj_on_of_nodup_map hids hr2 hr heq
  subst h
  exact Nat.le_refl _

/-- Appending a row with a fresh primary key never regresses. -/
theorem noStatusRegression_append (store : List Consultation) (row : Consultation)
    (hids : (store.map (fun r => r.id)).Nodup)
    (hfresh : ∀ r ∈ store, r.id ≠ row.id) :
    noStatusRegression store (store ++ [row]) := by
  intro r hr r2 hr2 heq
  rcases List.mem_append.mp hr2 with h2 | h2
  · have h : r2 = r := List.inj_on_of_nodup_map hids h2 hr heq
    subst h
    exact Nat.le_refl _
  · have h : r2 = row := by simpa using h2
    subst h
    exact absurd heq.symm (hfresh r hr)

/-- A pointwise rewrite that preserves primary keys and never lowers a
row's rank never regresses. -/
theorem noStatusRegression_map (store : List Consultation)
    (f : Consultation → Consultation)
    (hids : (store.map (fun r => r.id)).Nodup)
    (hid : ∀ r : Consultation, (f r).id = r.id)
    (hrank : ∀ r ∈ store, r.status.rank ≤ (f r).status.rank) :
    noStatusRegression store (store.map f) := by
  intro r hr r2 hr2 heq
  rcases List.mem_map.mp hr2 with ⟨r0, hr0, rfl⟩
  have heq0 : r0.id = r.id := by rw [← hid r0]; exact heq
  have h : r0 = r := List.inj_on_of_nodup_map hids hr0 hr heq0
  subst h
  exact hrank r0 hr0

/-- A store compared with itself creates no fresh answered row. -/
theorem noFreshAnswered_self (store : List Consultation) :
    noFreshAnswered store store :=
  fun r2 hr2 hans => ⟨r2, hr2, rfl, hans⟩

/-- Appending a row that is not answered creates no fresh answered row. -/
theorem noFreshAnswered_append (store : List Consultation) (row : Consultation)
    (hrow : row.status ≠ Status.answered) :
    noFreshAnswered store (store ++ [row]) := by
  intro r2 hr2 hans
  rcases List.mem_append.mp hr2 with h2 | h2
  · exact ⟨r2, h2, rfl, hans⟩
  · have h : r2 = row := by simpa using h2
    subst h
    exact absurd hans hrow

/-- A pointwise rewrite that preserves primary keys and only yields an
answered row from an answered row creates no fresh answered row. -/
theorem noFreshAnswered_map (store : List Consultation)
    (f : Consultation → Consultation)
    (hid : ∀ r : Consultation, (f r).id = r.id)
    (h : ∀ r ∈ store, (f r).status = Status.answered → r.status = Status.answered) :
    noFreshAnswered store (store.map f) := by
  intro r2 hr2 hans
  rcases List.mem_map.mp hr2 with ⟨r0, hr0, rfl⟩
  exact ⟨r0, hr0, (hid r0).symm, h r0 hr0 hans⟩

/-- C1 (amended): on a store with unique primary keys and unique session
ids and a fresh generated id, none of the three mutating operations moves
a row's status backwards, and neither the webhook nor the submit operation
ever yields an answered row that was not already answered — only the
respond operation moves rows into answered, from any prior status. -/
theorem C1_amended_status_forward (store : List Consultation)
    (sig : Option String) (sigValid : Bool) (event : StripeEvent)
    (dbFail : Bool) (newId now : String) (body : SubmitBody)
    (retrieve : Option StripeSession) (idv resp : String)
    (updateFail emailOk : Bool)
    (hids : (store.map (fun r => r.id)).Nodup)
    (hsess : (store.map (fun r => r.stripe_session_id)).Nodup)
    (hfresh : ∀ r ∈ store, r.id ≠ newId) :
    noStatusRegression store (webhookHandler sig sigValid event store dbFail newId now).2
    ∧ noStatusRegression store (submitHandler body store retrieve dbFail newId now).2
    ∧ noStatusRegression store (respondHandler idv resp store updateFail emailOk now).2.1
    ∧ noFreshAnswered store (webhookHandler sig sigValid event store dbFail newId now).2
    ∧ noFreshAnswered store (submitHandler body store retrieve dbFail newId now).2 := by
  refine ⟨?_, ?_, ?_, ?_, ?_⟩
  · rcases webhookHandler_store_shape sig sigValid event store dbFail newId now with
      h | ⟨row, hsh, hid, hst⟩
    · rw [h]; exact noStatusRegression_self store hids
    · rw [hsh]
      exact noStatusRegression_append store row hids
        (fun r hr => by rw [hid]; exact hfresh r hr)
  · rcases submitHandler_store_shape body store retrieve dbFail newId now with
      h | ⟨row, hsh, hid, hst⟩ | ⟨c, hfind, hcp, hsh⟩
    · rw [h]; exact noStatusRegression_self store hids
    · rw [hsh]
      exact noStatusRegression_append store row hids
        (fun r hr => by rw [hid]; exact hfresh r hr)
    · rw [hsh]
      refine noStatusRegression_map store _ hids (fun r => ?_) (fun r hr => ?_)
      · by_cases hm : r.stripe_session_id = body.session_id <;> simp [hm]
      · by_cases hm : r.stripe_session_id = body.session_id
        · have hcmem : c ∈ store := List.mem_of_find?_eq_some hfind
          have hcsid : c.stripe_session_id = body.session_id := by
            simpa using List.find?_some hfind
          have h : r = c :=
            List.inj_on_of_nodup_map hsess hr hcmem (by rw [hm, hcsid])
          subst h
          rw [if_pos hm, hcp]
          show Status.paid.rank ≤ Status.submitted.rank
          decide
        · simp [hm]
  · rcases respondHandler_store_shape idv resp store updateFail emailOk now with h | h
    · rw [h]; exact noStatusRegression_self store hids
    · rw [h]
      refine noStatusRegression_map store _ hids (fun r => ?_) (fun r hr => ?_)
      · by_cases hm : r.id = idv <;> simp [hm]
      · by_cases hm : r.id = idv
        · rw [if_pos hm]
          show r.status.rank ≤ Status.answered.rank
          cases r.status <;> decide
        · simp [hm]
  · rcases webhookHandler_store_shape sig sigValid event store dbFail newId now with
      h | ⟨row, hsh, hid, hst⟩
    · rw [h]; exact noFreshAnswered_self store
    · rw [hsh]
      exact noFreshAnswered_append store row (by rw [hst]; decide)
  · rcases submitHandler_store_shape body store retrieve dbFail newId now with
      h | ⟨row, hsh, hid, hst⟩ | ⟨c, hfind, hcp, hsh⟩
    · rw [h]; exact noFreshAnswered_self store
    · rw [hsh]
      exact noFreshAnswered_append store row (by rw [hst]; decide)
    · rw [hsh]
      refine noFreshAnswered_map store _ (fun r => ?_) (fun r hr hans => ?_)
      · by_cases hm : r.stripe_session_id = body.session_id <;> simp [hm]
      · by_cases hm : r.stripe_session_id = body.session_id
        · rw [if_pos hm] at hans
          simp at hans
        · rwa [if_neg hm] at hans

/-- C1 witness: the no-regression and no-fresh-answered facts instantiated
on a one-row paid store with a concrete webhook event, submit body and
respond request. -/
theorem C1_amended_status_forward_witness :
    noStatusRegression [sampleRow "1" "cs_123" Status.paid]
      (webhookHandler (some "sig_head") true
        (StripeEvent.checkoutSessionCompleted (sampleSession true 1500))
        [sampleRow "1" "cs_123" Status.paid] false "9" "t1").2
    ∧ noStatusRegression [sampleRow "1" "cs_123" Status.paid]
      (submitHandler sampleBody [sampleRow "1" "cs_123" Status.paid]
        (some (sampleSession true 1500)) false "9" "t1").2
    ∧ noStatusRegression [sampleRow "1" "cs_123" Status.paid]
      (respondHandler "1" "Guidance" [sampleRow "1" "cs_123" Status.paid]
        false true "t1").2.1
    ∧ noFreshAnswered [sampleRow "1" "cs_123" Status.paid]
      (webhookHandler (some "sig_head") true
        (StripeEvent.checkoutSessionCompleted (sampleSession true 1500))
        [sampleRow "1" "cs_123" Status.paid] false "9" "t1").2
    ∧ noFreshAnswered [sampleRow "1" "cs_123" Status.paid]
      (submitHandler sampleBody [sampleRow "1" "cs_123" Status.paid]
        (some (sampleSession true 1500)) false "9" "t1").2 :=
  C1_amended_status_forward [sampleRow "1" "cs_123" Status.paid]
    (some "sig_head") true
    (StripeEvent.checkoutSessionCompleted (sampleSession true 1500))
    false "9" "t1" sampleBody (some (sampleSession true 1500))
    "1" "Guidance" false true
    (by decide) (by decide) (by decide)

/-- C1 (counterexample): the respond handler answers a row that is still in
paid status, so in one operation the row jumps from paid to answered
without ever being submitted — refuting that every record passes through
submitted before becoming answered. -/
theorem C1_counterexample_paid_to_answered :
    (sampleRow "1" "cs_123" Status.paid).status = Status.paid
    ∧ ((respondHandler "1" "Voici ma guidance" [sampleRow "1" "cs_123" Status.paid]
        false true "t1").2.1.map (fun r => r.status)) = [Status.answered]
    ∧ ¬ noFreshAnswered [sampleRow "1" "cs_123" Status.paid]
        (respondHandler "1" "Voici ma guidance" [sampleRow "1" "cs_123" Status.paid]
          false true "t1").2.1 := by
  refine ⟨rfl, by decide, ?_⟩
  simp only [noFreshAnswered]
  decide
